import Mathlib

/-!
# Content gateway of the blog frontend (`src/app/_lib/api.js`)

A shallow embedding of the data-access layer: the transport primitive
`fetchData`, the query functions built on it, `getCoverUrl`, and `getTags`.

* JavaScript values are the inductive type `JsVal` (what `JSON.parse` can
  produce, plus `undefined`).  Numbers are finite and held as exact rationals.
* A function that may throw returns `Except JsError JsVal`; an `async`
  function that rejects is an `.error`.
* The outside world is the record `Env`: the configured base URL, the
  runtime's number/string conversions, and `fetch`, an oracle answering the
  `k`-th request the call issues.
* Diagnostic logging (`console.log`, `console.error`) has no effect on any
  returned value and is left out.
* The POST wrappers (`postCommentAndRating`, `login`, `register`), `getProfile`
  and `getCommentsAndRatingsBySlug` return what `fetchData` returns, or read it
  through optional chains, and are not embedded.
-/

namespace Api

/-- A JavaScript value as it comes out of `JSON.parse` (or is `undefined`).
An object is the list of its own properties, looked up first match first. -/
inductive JsVal where
  | undefined
  | null
  | bool (b : Bool)
  | num (q : ℚ)
  | str (s : String)
  | arr (xs : List JsVal)
  | obj (fields : List (String × JsVal))

/-- The exceptions the modelled code can meet. -/
inductive JsError where
  | typeError
  | syntaxError
  | networkError
  deriving DecidableEq, Repr

/-- A computation that returns a value or throws. -/
abbrev Js (α : Type) := Except JsError α

/-- What `await fetch(...)` resolves to: the `ok` flag, the status code, and
the outcome of `response.json()` (an error when the body is not JSON). -/
structure Response where
  ok : Bool
  status : Nat
  json : Js JsVal

/-- The environment of one call of an exported function.
`baseUrl` is `process.env.NEXT_PUBLIC_STRAPI_URL` (`none` when unset);
`numToString` and `strToNumber` are the runtime's conversions between numbers
and strings; `fetch k url options` is the outcome of the `k`-th request
(counted from 0) that the call issues, an error when the request fails at the
network level. -/
structure Env where
  baseUrl : Option String
  numToString : ℚ → String
  strToNumber : String → Option ℚ
  fetch : Nat → String → JsVal → Js Response

namespace JsVal

/-- Nullish test, `v == null` in JavaScript: `v` is `undefined` or `null`. -/
def isNullish : JsVal → Bool
  | undefined => true
  | null => true
  | _ => false

/-- Truthiness (`!!v`). -/
def truthy : JsVal → Bool
  | undefined => false
  | null => false
  | bool b => b
  | num q => decide (q ≠ 0)
  | str s => decide (s ≠ "")
  | arr _ => true
  | obj _ => true

/-- Logical or, `a || b`: the first operand when truthy, else the second. -/
def or (a b : JsVal) : JsVal := if a.truthy then a else b

/-- Strict equality `a === b` for a value `a` parsed from a response and a caller's value `b`:
primitives compare by type and value; arrays and objects compare by identity,
and a freshly parsed one is never the caller's. -/
def strictEq : JsVal → JsVal → Bool
  | undefined, undefined => true
  | null, null => true
  | bool a, bool b => a == b
  | num a, num b => decide (a = b)
  | str a, str b => a == b
  | _, _ => false

mutual
/-- String conversion of a template literal, `${v}`. -/
def toStr (ns : ℚ → String) : JsVal → String
  | undefined => "undefined"
  | null => "null"
  | bool b => if b then "true" else "false"
  | num q => ns q
  | str s => s
  | arr xs => joinElems ns xs
  | obj _ => "[object Object]"
termination_by structural v => v
/-- `Array.prototype.join(",")`: `undefined` and `null` elements are empty. -/
def joinElems (ns : ℚ → String) : List JsVal → String
  | [] => ""
  | x :: r =>
    (match x with
      | undefined => ""
      | null => ""
      | v => toStr ns v) ++ (match r with | [] => "" | _ => ",") ++ joinElems ns r
termination_by structural l => l
end

/-- Own-property lookup in an object's property list. -/
def lookup (k : String) : List (String × JsVal) → Option JsVal
  | [] => none
  | (k', v) :: r => if k' = k then some v else lookup k r

/-- Reads the decimal digits of an array index, most significant first. -/
def parseDigits : List Char → Nat → Option Nat
  | [], acc => some acc
  | c :: cs, acc =>
    if '0' ≤ c ∧ c ≤ '9' then parseDigits cs (10 * acc + (c.toNat - 48)) else none

/-- The array index a property key denotes: a canonical decimal numeral
(`"0"`, `"7"`, `"12"`; not `""`, `"01"` or `"x"`). -/
def parseIndex (k : String) : Option Nat :=
  match k.data with
  | [] => none
  | ['0'] => some 0
  | '0' :: _ => none
  | cs => parseDigits cs 0

/-- The value of `v[k]` for a non-nullish `v` and a key `k` that is not a
member of a builtin prototype (none of the keys the source reads is):
own property of an object, element or `length` of an array, character or
`length` of a string, `undefined` otherwise. Strings are counted in code
points; the source only tests a length for being zero and reads nothing from
a character. -/
def field (v : JsVal) (k : String) : JsVal :=
  match v with
  | obj fs => (lookup k fs).getD undefined
  | arr xs =>
    if k = "length" then num xs.length
    else match parseIndex k with
      | some i => xs.getD i undefined
      | none => undefined
  | str s =>
    if k = "length" then num s.length
    else match parseIndex k with
      | some i => ((s.data.get? i).map (fun c => str (String.singleton c))).getD undefined
      | none => undefined
  | _ => undefined

/-- Membership `k in Object(v)` for the same keys as `field`. -/
def hasProp (v : JsVal) (k : String) : Bool :=
  match v with
  | obj fs => (lookup k fs).isSome
  | arr xs =>
    k = "length" || (match parseIndex k with | some i => decide (i < xs.length) | none => false)
  | str s =>
    k = "length" || (match parseIndex k with | some i => decide (i < s.length) | none => false)
  | _ => false

/-- Property read `v.k`: a TypeError on `undefined` and `null`. -/
def getProp (v : JsVal) (k : String) : Js JsVal :=
  if v.isNullish then .error .typeError else .ok (field v k)

/-- Optional read `v?.k`. -/
def optProp (v : JsVal) (k : String) : JsVal :=
  if v.isNullish then undefined else field v k

/-- A parameter default, `(p = d)`: `d` replaces `undefined` only. -/
def orDefault (v d : JsVal) : JsVal :=
  match v with
  | undefined => d
  | _ => v

end JsVal

open JsVal

/-- Maps a throwing callback over a list, left to right; the first throw
ends the traversal. -/
def mapE {α β : Type} (f : α → Js β) : List α → Js (List β)
  | [] => .ok []
  | x :: xs =>
    match f x with
    | .error e => .error e
    | .ok y =>
      match mapE f xs with
      | .error e => .error e
      | .ok ys => .ok (y :: ys)

/-- The same with the element's position, counted from `i`. -/
def mapIdxE {α β : Type} (f : Nat → α → Js β) : Nat → List α → Js (List β)
  | _, [] => .ok []
  | i, x :: xs =>
    match f i x with
    | .error e => .error e
    | .ok y =>
      match mapIdxE f (i + 1) xs with
      | .error e => .error e
      | .ok ys => .ok (y :: ys)

/-- Method call `v.map(f)`: defined on arrays; on anything else the method
is missing and the call is a TypeError. -/
def arrayMap (v : JsVal) (f : JsVal → Js JsVal) : Js JsVal :=
  match v with
  | arr xs =>
    match mapE f xs with
    | .error e => .error e
    | .ok ys => .ok (arr ys)
  | _ => .error .typeError

/-- The text of `${baseUrl}` in a template literal. -/
def Env.baseStr (env : Env) : String :=
  match env.baseUrl with
  | some b => b
  | none => "undefined"

/-- The text of `${v}` under the environment's number formatting. -/
def Env.tmpl (env : Env) (v : JsVal) : String := toStr env.numToString v

/-! ## lodash `get`

The source imports `get` from lodash, a dependency outside the repository.
It is modelled on lodash 4 (`get`, `baseGet`, `castPath`, `isKey`,
`stringToPath`). -/

/-- A character of `\w`. -/
def isWordChar (c : Char) : Bool :=
  c.isAlphanum || c = '_'

/-- Splits a property path at `.`, `[` and `]`, dropping empty pieces:
lodash's `stringToPath` on paths such as `a.b[0].c`, made of names, dots and
bracketed indices. -/
def splitPath : List Char → List Char → List String
  | [], cur => if cur = [] then [] else [String.mk cur.reverse]
  | c :: cs, cur =>
    if c = '.' ∨ c = '[' ∨ c = ']' then
      (if cur = [] then splitPath cs [] else String.mk cur.reverse :: splitPath cs [])
    else splitPath cs (c :: cur)

/-- Path of a string, as `stringToPath`. -/
def stringToPath (path : String) : List String := splitPath path.data []

/-- lodash's `isKey` for a string path: a plain name, or a string without
path syntax, or a property the object itself has. -/
def isKey (path : String) (object : JsVal) : Bool :=
  path.data.all isWordChar
    || !(path.data.any (fun c => c = '.' || c = '['))
    || (!object.isNullish && hasProp object path)

/-- lodash's `castPath`. -/
def castPath (path : String) (object : JsVal) : List String :=
  if isKey path object then [path] else stringToPath path

/-- The loop of lodash's `baseGet`: follow the keys while the object is
not nullish; a nullish object before the end of the path gives `undefined`. -/
def baseGetLoop : JsVal → List String → JsVal
  | object, [] => object
  | object, k :: ks => if object.isNullish then undefined else baseGetLoop (field object k) ks

/-- lodash's `baseGet`: an empty path gives `undefined`. -/
def baseGet (object : JsVal) (path : String) : JsVal :=
  match castPath path object with
  | [] => undefined
  | ks => baseGetLoop object ks

/-- lodash's `get(object, path)` with no default value. -/
def get (object : JsVal) (path : String) : JsVal :=
  if object.isNullish then undefined else baseGet object path

/-! ## The transport primitive -/

/-- The `try` block of `fetchData`. -/
def fetchDataTry (env : Env) (k : Nat) (url : String) (options : JsVal) : Js JsVal :=
  match env.fetch k (env.baseStr ++ url) options with
  | .error e => .error e
  | .ok response =>
    if !response.ok then .ok null
    else
      match response.json with
      | .error e => .error e
      | .ok data => .ok data

/-- Function `fetchData(url, options)`, issued as the call's `k`-th request: the `try`
block, with every exception caught and turned into `null`. -/
def fetchData (env : Env) (k : Nat) (url : String) (options : JsVal) : Js JsVal :=
  match fetchDataTry env k url options with
  | .ok v => .ok v
  | .error _ => .ok null

/-- Function `getCoverUrl(cover)`. -/
def getCoverUrl (env : Env) (cover : JsVal) : JsVal :=
  let coverUrl := get cover "data[0].attributes.url"
  if coverUrl.truthy then str (env.baseStr ++ env.tmpl coverUrl) else null

/-- Guard `!strapiData || !strapiData.data`: it never throws, as each
property is read only from a truthy value. -/
def noData (strapiData : JsVal) : Bool :=
  !strapiData.truthy || !(field strapiData "data").truthy

/-- Guard `!strapiData || !strapiData.data || !strapiData.data.length`. -/
def noItems (strapiData : JsVal) : Bool :=
  noData strapiData || !(field (field strapiData "data") "length").truthy

/-- Expression `rel?.data.map(f) || []`: the optional chain stops at a nullish `rel`
only; past it `data` is read and `map` called unguarded. -/
def optTags (rel : JsVal) (f : JsVal → Js JsVal) : Js JsVal :=
  if rel.isNullish then .ok (JsVal.or undefined (arr []))
  else
    match getProp rel "data" with
    | .error e => .error e
    | .ok data =>
      match arrayMap data f with
      | .error e => .error e
      | .ok mapped => .ok (JsVal.or mapped (arr []))

/-- The callback `(tag) => ({ name: tag.attributes.name })`. -/
def tagName (tag : JsVal) : Js JsVal := do
  let attributes ← getProp tag "attributes"
  let name ← getProp attributes "name"
  pure (obj [("name", name)])

/-- The callback `(tag) => ({ name: tag.attributes.name, slug: tag.attributes.slug })`. -/
def tagNameSlug (tag : JsVal) : Js JsVal := do
  let attributes ← getProp tag "attributes"
  let name ← getProp attributes "name"
  let attributes2 ← getProp tag "attributes"
  let slug ← getProp attributes2 "slug"
  pure (obj [("name", name), ("slug", slug)])

/-- The callback `(tag) => tag.attributes`. -/
def tagAttributes (tag : JsVal) : Js JsVal := getProp tag "attributes"

/-- Expression `strapiData.meta.pagination`. -/
def metaPagination (strapiData : JsVal) : Js JsVal := do
  let m ← getProp strapiData "meta"
  getProp m "pagination"

/-- The record built per post by `getAllBlogs` and `searchPosts`. -/
def listRecord (env : Env) (post : JsVal) : Js JsVal := do
  let id ← getProp post "id"
  let attributes ← getProp post "attributes"
  let title ← getProp attributes "title"
  let slug ← getProp attributes "slug"
  let cover ← getProp attributes "cover"
  let tagsRel ← getProp attributes "tags"
  let tags ← optTags tagsRel tagName
  let createdAt ← getProp attributes "createdAt"
  pure (obj [("id", id), ("title", title), ("slug", slug),
    ("coverUrl", getCoverUrl env cover), ("tags", tags), ("createdAt", createdAt)])

/-- Function `getAllBlogs(page = 1, pageSize = 4)`. -/
def getAllBlogs (env : Env) (page pageSize : JsVal) : Js JsVal := do
  let page := orDefault page (num 1)
  let pageSize := orDefault pageSize (num 4)
  let strapiData ← fetchData env 0
    ("/api/posts?populate=cover&pagination[page]=" ++ env.tmpl page
      ++ "&pagination[pageSize]=" ++ env.tmpl pageSize ++ "&sort[0]=createdAt:desc") (obj [])
  if noItems strapiData then pure null
  else do
    let data ← arrayMap (field strapiData "data") (listRecord env)
    let pagination ← metaPagination strapiData
    pure (obj [("data", data), ("pagination", pagination)])

/-- Function `getBlogBySlug(slug)`. -/
def getBlogBySlug (env : Env) (slug : JsVal) : Js JsVal := do
  let strapiData ← fetchData env 0
    ("/api/posts?filters[slug][$eq]=" ++ env.tmpl slug ++ "&populate=cover,seo,tags") (obj [])
  if noItems strapiData then pure null
  else do
    let post := field (field strapiData "data") "0"
    let id ← getProp post "id"
    let attributes ← getProp post "attributes"
    let title ← getProp attributes "title"
    let content ← getProp attributes "content"
    let cover ← getProp attributes "cover"
    let tagsRel ← getProp attributes "tags"
    let tags ← optTags tagsRel tagNameSlug
    let seo ← getProp attributes "seo"
    let createdAt ← getProp attributes "createdAt"
    pure (obj [("id", id), ("title", title), ("content", content),
      ("cover", getCoverUrl env cover), ("tags", tags), ("seo", seo), ("createdAt", createdAt)])

/-- The record built per post by `getBlogsByTag`: the tag relation is read
without an optional chain. -/
def tagPageRecord (env : Env) (post : JsVal) : Js JsVal := do
  let id ← getProp post "id"
  let attributes ← getProp post "attributes"
  let title ← getProp attributes "title"
  let slug ← getProp attributes "slug"
  let tagsRel ← getProp attributes "tags"
  let tagsData ← getProp tagsRel "data"
  let tags ← arrayMap tagsData tagAttributes
  let cover ← getProp attributes "cover"
  let createdAt ← getProp attributes "createdAt"
  pure (obj [("id", id), ("title", title), ("slug", slug), ("tags", tags),
    ("coverUrl", getCoverUrl env cover), ("createdAt", createdAt)])

/-- The sentinel `{ data: [], pagination: { pageCount: 1 } }`. -/
def emptyPage : JsVal :=
  obj [("data", arr []), ("pagination", obj [("pageCount", num 1)])]

/-- Function `getBlogsByTag(tag, page = 1, pageSize = 8)`. -/
def getBlogsByTag (env : Env) (tag page pageSize : JsVal) : Js JsVal := do
  let page := orDefault page (num 1)
  let pageSize := orDefault pageSize (num 8)
  let strapiData ← fetchData env 0
    ("/api/posts?filters[tags][slug][$eq]=" ++ env.tmpl tag
      ++ "&populate=cover,tags&pagination[page]=" ++ env.tmpl page
      ++ "&pagination[pageSize]=" ++ env.tmpl pageSize ++ "&sort[0]=createdAt:desc") (obj [])
  if noItems strapiData then pure emptyPage
  else do
    let data ← arrayMap (field strapiData "data") (tagPageRecord env)
    let pagination ← metaPagination strapiData
    pure (obj [("data", data), ("pagination", pagination)])

/-- Maps a throwing predicate over a list and keeps the elements it accepts. -/
def filterE {α : Type} (f : α → Js Bool) : List α → Js (List α)
  | [] => .ok []
  | x :: xs =>
    match f x with
    | .error e => .error e
    | .ok b =>
      match filterE f xs with
      | .error e => .error e
      | .ok ys => .ok (if b then x :: ys else ys)

/-- Method call `v.filter(f)`: defined on arrays, a TypeError elsewhere. -/
def arrayFilter (v : JsVal) (f : JsVal → Js Bool) : Js JsVal :=
  match v with
  | arr xs =>
    match filterE f xs with
    | .error e => .error e
    | .ok ys => .ok (arr ys)
  | _ => .error .typeError

/-- The record built per post by `getSimilarPosts`: the tag relation is read
without an optional chain. -/
def similarRecord (env : Env) (post : JsVal) : Js JsVal := do
  let id ← getProp post "id"
  let attributes ← getProp post "attributes"
  let title ← getProp attributes "title"
  let slug ← getProp attributes "slug"
  let cover ← getProp attributes "cover"
  let tagsRel ← getProp attributes "tags"
  let tagsData ← getProp tagsRel "data"
  let tags ← arrayMap tagsData tagAttributes
  let createdAt ← getProp attributes "createdAt"
  pure (obj [("id", id), ("title", title), ("slug", slug),
    ("coverUrl", getCoverUrl env cover), ("tags", tags), ("createdAt", createdAt)])

/-- The filter callback `(post) => post.id !== currentPostId`. -/
def notCurrent (currentPostId : JsVal) (post : JsVal) : Js Bool := do
  let id ← getProp post "id"
  pure (!strictEq id currentPostId)

/-- The query string of `getSimilarPosts`: one filter clause per tag, joined by `&`. -/
def tagFilters (env : Env) (ts : List JsVal) : String :=
  "&".intercalate (ts.map (fun tag => "filters[tags][name][$eq]=" ++ env.tmpl tag))

/-- Function `getSimilarPosts(tags, currentPostId)`. `tags.map` runs before the
request and is a TypeError when `tags` is not an array. -/
def getSimilarPosts (env : Env) (tags currentPostId : JsVal) : Js JsVal :=
  match tags with
  | arr ts => do
    let strapiData ← fetchData env 0
      ("/api/posts?" ++ tagFilters env ts ++ "&populate=cover,tags") (obj [])
    if noData strapiData then pure (arr [])
    else do
      let kept ← arrayFilter (field strapiData "data") (notCurrent currentPostId)
      arrayMap kept (similarRecord env)
  | _ => .error .typeError

/-- The record built per post by `getBlogsByPage`: `seo` is read without an
optional chain. -/
def pageRecord (env : Env) (post : JsVal) : Js JsVal := do
  let id ← getProp post "id"
  let attributes ← getProp post "attributes"
  let title ← getProp attributes "title"
  let content ← getProp attributes "content"
  let cover ← getProp attributes "cover"
  let tagsRel ← getProp attributes "tags"
  let tags ← optTags tagsRel tagName
  let seo ← getProp attributes "seo"
  let seoId ← getProp seo "id"
  let seoTitle ← getProp seo "SeoTitle"
  let seoDescription ← getProp seo "SeoDescription"
  let createdAt ← getProp attributes "createdAt"
  pure (obj [("id", id), ("title", title), ("content", content),
    ("cover", getCoverUrl env cover), ("tags", tags),
    ("seo", obj [("id", seoId), ("SeoTitle", seoTitle), ("SeoDescription", seoDescription)]),
    ("createdAt", createdAt)])

/-- Function `getBlogsByPage(page, pageSize)`. -/
def getBlogsByPage (env : Env) (page pageSize : JsVal) : Js JsVal := do
  let strapiData ← fetchData env 0
    ("/api/posts?pagination[page]=" ++ env.tmpl page
      ++ "&pagination[pageSize]=" ++ env.tmpl pageSize ++ "&populate=cover,seo,tags") (obj [])
  if noData strapiData then pure (obj [("posts", arr []), ("meta", obj [])])
  else do
    let posts ← arrayMap (field strapiData "data") (pageRecord env)
    let pagination ← metaPagination strapiData
    pure (obj [("posts", posts), ("meta", pagination)])

/-- Function `searchPosts(query, page = 1, pageSize = 8)`. -/
def searchPosts (env : Env) (query page pageSize : JsVal) : Js JsVal := do
  let page := orDefault page (num 1)
  let pageSize := orDefault pageSize (num 8)
  let strapiData ← fetchData env 0
    ("/api/posts?filters[title][$containsi]=" ++ env.tmpl query
      ++ "&pagination[page]=" ++ env.tmpl page
      ++ "&pagination[pageSize]=" ++ env.tmpl pageSize ++ "&populate=cover,tags") (obj [])
  if noData strapiData then pure (arr [])
  else do
    let data ← arrayMap (field strapiData "data") (listRecord env)
    let pagination ← metaPagination strapiData
    pure (obj [("data", data), ("pagination", pagination)])

/-! ## Popular posts by rating -/

/-- Numeric conversion of an operand of `-`; `none` is NaN. -/
def toNumber (env : Env) : JsVal → Option ℚ
  | .undefined => none
  | .null => some 0
  | .bool b => some (if b then 1 else 0)
  | .num q => some q
  | .str s => env.strToNumber s
  | .arr xs => env.strToNumber (env.tmpl (.arr xs))
  | .obj _ => none

/-- The comparator `(a, b) => b.averageRating - a.averageRating` on two
records; `none` is NaN. -/
def byRatingDesc (env : Env) (a b : JsVal) : Option ℚ :=
  match toNumber env (field b "averageRating"), toNumber env (field a "averageRating") with
  | some y, some x => some (y - x)
  | _, _ => none

/-- Whether the comparator puts `a` after `b`: its value is positive (NaN
counts as zero). -/
def sortsAfter (cmp : JsVal → JsVal → Option ℚ) (a b : JsVal) : Bool :=
  match cmp a b with
  | some v => decide (0 < v)
  | none => false

/-- Stable insertion of `x` in front of a sorted list: `x` passes the
elements the comparator puts before it and stops at the first other one. -/
def insertSorted (cmp : JsVal → JsVal → Option ℚ) (x : JsVal) : List JsVal → List JsVal
  | [] => [x]
  | y :: ys => if sortsAfter cmp x y then y :: insertSorted cmp x ys else x :: y :: ys

/-- Method `Array.prototype.sort(cmp)` on a list of objects: the stable sort
that the language requires, computed by insertion from the right. -/
def arraySort (cmp : JsVal → JsVal → Option ℚ) : List JsVal → List JsVal
  | [] => []
  | x :: xs => insertSorted cmp x (arraySort cmp xs)

/-- The async callback of `getPopularBlogsByRating` for the post at position
`i`: its statistics request is the call's request number `i + 1`. -/
def ratedRecord (env : Env) (i : Nat) (post : JsVal) : Js JsVal := do
  let attributes0 ← getProp post "attributes"
  let slug0 ← getProp attributes0 "slug"
  let ratingData ← fetchData env (i + 1)
    ("/api/ratings/reviews/" ++ env.tmpl slug0 ++ "/stats") (obj [])
  let id ← getProp post "id"
  let attributes ← getProp post "attributes"
  let title ← getProp attributes "title"
  let slug ← getProp attributes "slug"
  let cover ← getProp attributes "cover"
  let tagsRel ← getProp attributes "tags"
  let tags ← optTags tagsRel tagName
  let createdAt ← getProp attributes "createdAt"
  pure (obj [("id", id), ("title", title), ("slug", slug),
    ("coverUrl", getCoverUrl env cover), ("tags", tags), ("createdAt", createdAt),
    ("averageRating", JsVal.or (optProp ratingData "averageScore") (num 0))])

/-- Function `getPopularBlogsByRating()`. `Promise.all` keeps the callbacks'
results in list order and rejects when any callback rejects. -/
def getPopularBlogsByRating (env : Env) : Js JsVal := do
  let strapiData ← fetchData env 0 "/api/posts?populate=cover,tags" (obj [])
  if noData strapiData then pure (arr [])
  else
    match field strapiData "data" with
    | arr posts => do
      let postsWithRatings ← mapIdxE (ratedRecord env) 0 posts
      pure (arr (arraySort (byRatingDesc env) postsWithRatings))
    | _ => .error .typeError

/-! ## Tags -/

/-- Function `getImagerUrl(image)`. -/
def getImagerUrl (env : Env) (image : JsVal) : JsVal :=
  let imageUrl := optProp (optProp (optProp image "data") "attributes") "url"
  if imageUrl.truthy then str (env.baseStr ++ env.tmpl imageUrl) else null

/-- The callback of `getTags`: two destructurings, then the record. -/
def tagRecord (env : Env) (tag : JsVal) : Js JsVal := do
  let id ← getProp tag "id"
  let attributes ← getProp tag "attributes"
  let name ← getProp attributes "name"
  let slug ← getProp attributes "slug"
  let image ← getProp attributes "image"
  pure (obj [("id", id), ("name", name), ("slug", slug), ("image", getImagerUrl env image)])

/-- Function `getTags()`: it calls `fetch` and `response.json()` directly,
outside any `try`. -/
def getTags (env : Env) : Js JsVal := do
  let response ← env.fetch 0 (env.baseStr ++ "/api/tags?populate=image") undefined
  let strapiData ← response.json
  if noData strapiData then pure (arr [])
  else arrayMap (field strapiData "data") (tagRecord env)

/-! ## Well-formed responses and the records the functions build -/

/-- Whether a tag entry can be read: it and its attributes are not nullish. -/
def tagOk (t : JsVal) : Bool := !t.isNullish && !(field t "attributes").isNullish

/-- Whether a tag relation is absent or populated with readable entries. -/
def tagsOk (rel : JsVal) : Bool :=
  rel.isNullish ||
    match field rel "data" with
    | arr ts => ts.all tagOk
    | _ => false

/-- The entries of a tag relation, none when the relation is absent. -/
def tagList (rel : JsVal) : List JsVal :=
  if rel.isNullish then []
  else
    match field rel "data" with
    | arr ts => ts
    | _ => []

/-- The `{name, slug}` pair of a tag entry. -/
def tagPair (t : JsVal) : JsVal :=
  obj [("name", field (field t "attributes") "name"),
    ("slug", field (field t "attributes") "slug")]

/-- The rating a sorted record carries, 0 when it is not a number. -/
def ratingOf (r : JsVal) : ℚ :=
  match field r "averageRating" with
  | num q => q
  | _ => 0

/-- Whether a record's `averageRating` is a number. -/
def isRated (r : JsVal) : Bool :=
  match field r "averageRating" with
  | num _ => true
  | _ => false

/-- Whether a post can be reshaped by `ratedRecord`: it and its attributes
are not nullish and its tag relation is absent or populated. -/
def postOk (post : JsVal) : Bool :=
  !post.isNullish && !(field post "attributes").isNullish
    && tagsOk (field (field post "attributes") "tags")

/-- Whether a statistics result is `null` (no result) or carries a numeric
`averageScore`. -/
def statsOk (st : JsVal) : Bool :=
  match st with
  | .null => true
  | _ =>
    match field st "averageScore" with
    | .num _ => true
    | _ => false

/-- The `averageScore` of a statistics result, 0 when there is no result. -/
def scoreOf (st : JsVal) : ℚ :=
  match optProp st "averageScore" with
  | .num q => q
  | _ => 0

/-- The address of the statistics request of a post. -/
def ratingUrl (env : Env) (post : JsVal) : String :=
  "/api/ratings/reviews/" ++ env.tmpl (field (field post "attributes") "slug") ++ "/stats"

/-- The `{name}` record of a tag entry. -/
def tagNameOnly (t : JsVal) : JsVal :=
  obj [("name", field (field t "attributes") "name")]

/-- The reshaped record of a post with rating `q`. -/
def ratedView (env : Env) (post : JsVal) (q : ℚ) : JsVal :=
  obj [("id", field post "id"),
    ("title", field (field post "attributes") "title"),
    ("slug", field (field post "attributes") "slug"),
    ("coverUrl", getCoverUrl env (field (field post "attributes") "cover")),
    ("tags", arr ((tagList (field (field post "attributes") "tags")).map tagNameOnly)),
    ("createdAt", field (field post "attributes") "createdAt"),
    ("averageRating", num q)]

/-- The reshaped records of the posts from position `i` on, each rated by the
score of its own statistics result. -/
def ratedViews (env : Env) (stats : Nat → JsVal) : Nat → List JsVal → List JsVal
  | _, [] => []
  | i, post :: posts => ratedView env post (scoreOf (stats i)) :: ratedViews env stats (i + 1) posts

/-- Whether a post can be reshaped by `similarRecord`: its attributes are not
nullish and its tag relation is populated with entries that are not nullish. -/
def similarOk (post : JsVal) : Bool :=
  !(field post "attributes").isNullish
    && !(field (field post "attributes") "tags").isNullish
    && match field (field (field post "attributes") "tags") "data" with
      | .arr ts => ts.all (fun t => !t.isNullish)
      | _ => false

/-- The reshaped record of a post in the similar-posts list. -/
def similarView (env : Env) (post : JsVal) : JsVal :=
  obj [("id", field post "id"),
    ("title", field (field post "attributes") "title"),
    ("slug", field (field post "attributes") "slug"),
    ("coverUrl", getCoverUrl env (field (field post "attributes") "cover")),
    ("tags", arr ((tagList (field (field post "attributes") "tags")).map
      (fun t => field t "attributes"))),
    ("createdAt", field (field post "attributes") "createdAt")]

/-! ## Sample environments and responses -/

/-- An environment whose every request has the same outcome. -/
def envOf (outcome : Js Response) : Env :=
  { baseUrl := some "http://cms"
    numToString := fun _ => "1"
    strToNumber := fun _ => none
    fetch := fun _ _ _ => outcome }

/-- An environment whose every request succeeds with the JSON body `body`. -/
def envJson (body : JsVal) : Env :=
  envOf (.ok { ok := true, status := 200, json := .ok body })

/-- The list envelope with no items and pagination `p`. -/
def emptyEnvelope (p : JsVal) : JsVal :=
  obj [("data", arr []), ("meta", obj [("pagination", p)])]

/-- A response with one post that carries a title and a slug and no relation. -/
def bareResponse : JsVal :=
  obj [("data", arr [obj [("id", num 1),
      ("attributes", obj [("title", str "Hello"), ("slug", str "hello")])]]),
    ("meta", obj [("pagination", obj [("pageCount", num 1)])])]

/-- A response with two posts: the first has tags and no `seo`, the second
has both. -/
def seoLessResponse : JsVal :=
  obj [("data", arr [
      obj [("id", num 1), ("attributes", obj [("title", str "A"),
        ("tags", obj [("data", arr [])])])],
      obj [("id", num 2), ("attributes", obj [("title", str "B"),
        ("tags", obj [("data", arr [])]),
        ("seo", obj [("id", num 9), ("SeoTitle", str "b"), ("SeoDescription", str "bb")])])]]),
    ("meta", obj [("pagination", obj [("pageCount", num 1)])])]

/-- A post with the given id and slug, one tag, a cover and seo metadata. -/
def fullPost (id : ℚ) (slug : String) : JsVal :=
  obj [("id", num id),
    ("attributes", obj [("title", str "Title"), ("slug", str slug),
      ("content", str "Body"),
      ("cover", obj [("data", arr [obj [("attributes", obj [("url", str "/c.png")])]])]),
      ("tags", obj [("data", arr [obj [("id", num 1),
        ("attributes", obj [("name", str "News"), ("slug", str "news")])]])]),
      ("seo", obj [("id", num 4), ("SeoTitle", str "T"), ("SeoDescription", str "D")]),
      ("createdAt", str "2024-01-01")])]

/-- A list response with the posts 7, 8 and 9. -/
def threePosts : JsVal :=
  obj [("data", arr [fullPost 7 "seven", fullPost 8 "eight", fullPost 9 "nine"]),
    ("meta", obj [("pagination", obj [("pageCount", num 1)])])]

/-- The statistics results of the sample: scores 3, no result, 5. -/
def sampleStats : Nat → JsVal
  | 0 => obj [("averageScore", num 3)]
  | 2 => obj [("averageScore", num 5)]
  | _ => null

/-- An environment answering the first request with `threePosts` and the
statistics requests with `sampleStats`, the second of them failing. -/
def popularEnv : Env :=
  { baseUrl := some "http://cms"
    numToString := fun _ => "1"
    strToNumber := fun _ => none
    fetch := fun k _ _ =>
      match k with
      | 0 => .ok { ok := true, status := 200, json := .ok threePosts }
      | 2 => .error .networkError
      | j + 1 => .ok { ok := true, status := 200, json := .ok (sampleStats j) } }

/-- A cover relation as the content service sends it: two entries with ids
and further attributes. -/
def twoEntryCover : JsVal :=
  obj [("data", arr [
    obj [("id", num 11), ("attributes", obj [("name", str "a.png"),
      ("url", str "/uploads/a.png"), ("width", num 800)])],
    obj [("id", num 12), ("attributes", obj [("name", str "b.png"),
      ("url", str "/uploads/b.png"), ("width", num 600)])]])]

/-- A response holding the post 7 and a post 8 that has no tag relation. -/
def taglessNeighbour : JsVal :=
  obj [("data", arr [fullPost 7 "seven",
      obj [("id", num 8), ("attributes", obj [("title", str "Eight"), ("slug", str "eight")])]]),
    ("meta", obj [("pagination", obj [("pageCount", num 1)])])]

/-! ## Basic facts -/

theorem getProp_of_not_nullish {v : JsVal} (k : String) (h : v.isNullish = false) :
    getProp v k = .ok (field v k) := by
  simp [getProp, h]

theorem fetchData_ok (env : Env) (k : Nat) (url : String) (options : JsVal) :
    ∃ v, fetchData env k url options = .ok v := by
  unfold fetchData
  cases fetchDataTry env k url options with
  | ok v => exact ⟨v, rfl⟩
  | error e => exact ⟨null, rfl⟩

theorem ok_bind {α β : Type} (x : α) (f : α → Js β) :
    ((Except.ok x : Js α) >>= f) = f x := rfl

theorem pure_eq_ok {α : Type} (x : α) : (pure x : Js α) = .ok x := rfl

theorem mapE_eq_map {α β : Type} (f : α → Js β) (g : α → β) (xs : List α)
    (h : ∀ x ∈ xs, f x = .ok (g x)) : mapE f xs = .ok (xs.map g) := by
  induction xs with
  | nil => rfl
  | cons x xs ih =>
    have hx := h x (List.mem_cons_self x xs)
    have hxs := ih (fun y hy => h y (List.mem_cons_of_mem x hy))
    simp [mapE, hx, hxs]

theorem truthy_of_field_data {sd : JsVal} {xs : List JsVal} (h : field sd "data" = arr xs) :
    sd.truthy = true := by
  cases sd with
  | obj fs => rfl
  | arr ys =>
    have h2 : field (arr ys) "data" = undefined := rfl
    rw [h2] at h
    cases h
  | str s =>
    have h2 : field (str s) "data" = undefined := rfl
    rw [h2] at h
    cases h
  | _ => cases h

theorem noData_of_field_data {sd : JsVal} {xs : List JsVal} (h : field sd "data" = arr xs) :
    noData sd = false := by
  unfold noData
  rw [truthy_of_field_data h, h]
  rfl

theorem noItems_of_cons {sd p : JsVal} {rest : List JsVal}
    (h : field sd "data" = arr (p :: rest)) : noItems sd = false := by
  have hlen : field (arr (p :: rest)) "length" = num ((p :: rest).length : ℕ) := rfl
  have hne : ((rest.length : ℚ) + 1) ≠ 0 := by positivity
  unfold noItems
  rw [noData_of_field_data h, h, hlen]
  simp [truthy, hne]

theorem tagNameSlug_ok (t : JsVal) (h : tagOk t = true) :
    tagNameSlug t = .ok (obj [("name", field (field t "attributes") "name"),
      ("slug", field (field t "attributes") "slug")]) := by
  simp only [tagOk, Bool.and_eq_true, Bool.not_eq_true'] at h
  simp only [tagNameSlug, getProp_of_not_nullish _ h.1, getProp_of_not_nullish _ h.2,
    ok_bind, pure_eq_ok]

theorem tagName_ok (t : JsVal) (h : tagOk t = true) : tagName t = .ok (tagNameOnly t) := by
  simp only [tagOk, Bool.and_eq_true, Bool.not_eq_true'] at h
  simp only [tagName, getProp_of_not_nullish _ h.1, getProp_of_not_nullish _ h.2,
    ok_bind, pure_eq_ok, tagNameOnly]

theorem optTags_ok (rel : JsVal) (f : JsVal → Js JsVal) (g : JsVal → JsVal)
    (hf : ∀ t, tagOk t = true → f t = .ok (g t)) (h : tagsOk rel = true) :
    optTags rel f = .ok (arr ((tagList rel).map g)) := by
  unfold tagsOk at h
  cases hn : rel.isNullish with
  | true => simp [optTags, tagList, hn, JsVal.or, truthy]
  | false =>
    simp only [hn, Bool.false_or] at h
    cases hd : field rel "data" with
    | arr ts =>
      rw [hd] at h
      have hm := mapE_eq_map f g ts (fun t ht => hf t (List.all_eq_true.mp h t ht))
      simp [optTags, tagList, hn, getProp, hd, arrayMap, hm, JsVal.or, truthy]
    | _ => simp [hd] at h

/-! ## The transport primitive (C7) -/

/-- C7: `fetchData` never raises and collapses every failure to `null`: it
always returns a value; a network error, a response that is not ok, and a body
that is not parsable JSON each give `null`; an ok response whose body parses
to `v` gives `v`. -/
theorem fetchData_collapses (env : Env) (k : Nat) (url : String) (options : JsVal) :
    (∃ v, fetchData env k url options = .ok v) ∧
    (∀ e, env.fetch k (env.baseStr ++ url) options = .error e →
      fetchData env k url options = .ok null) ∧
    (∀ r, env.fetch k (env.baseStr ++ url) options = .ok r → r.ok = false →
      fetchData env k url options = .ok null) ∧
    (∀ r e, env.fetch k (env.baseStr ++ url) options = .ok r → r.ok = true →
      r.json = .error e → fetchData env k url options = .ok null) ∧
    (∀ r v, env.fetch k (env.baseStr ++ url) options = .ok r → r.ok = true →
      r.json = .ok v → fetchData env k url options = .ok v) := by
  refine ⟨fetchData_ok env k url options, ?_, ?_, ?_, ?_⟩
  · intro e h
    simp [fetchData, fetchDataTry, h]
  · intro r h hr
    simp [fetchData, fetchDataTry, h, hr]
  · intro r e h hr hj
    simp [fetchData, fetchDataTry, h, hr, hj]
  · intro r v h hr hj
    simp [fetchData, fetchDataTry, h, hr, hj]

/-- C7 at concrete inputs: a network error, a 500 response, a body that is
not JSON, and a body that parses. -/
theorem fetchData_collapses_witness :
    fetchData (envOf (.error .networkError)) 0 "/api/posts" (obj []) = .ok null ∧
    fetchData (envOf (.ok { ok := false, status := 500, json := .ok (str "x") })) 0
      "/api/posts" (obj []) = .ok null ∧
    fetchData (envOf (.ok { ok := true, status := 200, json := .error .syntaxError })) 0
      "/api/posts" (obj []) = .ok null ∧
    fetchData (envJson (num 3)) 0 "/api/posts" (obj []) = .ok (num 3) :=
  ⟨(fetchData_collapses (envOf (.error .networkError)) 0 "/api/posts" (obj [])).2.1
      .networkError rfl,
   (fetchData_collapses (envOf (.ok { ok := false, status := 500, json := .ok (str "x") })) 0
      "/api/posts" (obj [])).2.2.1 _ rfl rfl,
   (fetchData_collapses (envOf (.ok { ok := true, status := 200, json := .error .syntaxError }))
      0 "/api/posts" (obj [])).2.2.2.1 _ .syntaxError rfl rfl rfl,
   (fetchData_collapses (envJson (num 3)) 0 "/api/posts" (obj [])).2.2.2.2 _ (num 3)
      rfl rfl rfl⟩

/-! ## Tags (C8) -/

/-- C8, at the failing inputs: `getTags` raises when its request fails at the
network level and when the response body is not JSON, while `fetchData` on the
same outcomes returns `null`. -/
theorem getTags_raises :
    getTags (envOf (.error .networkError)) = .error .networkError ∧
    getTags (envOf (.ok { ok := true, status := 200, json := .error .syntaxError }))
      = .error .syntaxError ∧
    fetchData (envOf (.error .networkError)) 0 "/api/tags?populate=image" (obj [])
      = .ok null := by
  refine ⟨rfl, rfl, rfl⟩

/-! ## Cover URL (C3) -/

/-- C3 fails for the single-object relation shape: `getCoverUrl` reads
`data[0]`, which an object `data` does not have, and returns `null` instead of
the base URL followed by the path. -/
theorem getCoverUrl_object_shape_null :
    getCoverUrl (envJson null)
        (obj [("data", obj [("attributes", obj [("url", str "/a.png")])])]) = null ∧
    getCoverUrl (envJson null)
        (obj [("data", obj [("attributes", obj [("url", str "/a.png")])])])
      ≠ str ("http://cms" ++ "/a.png") := by
  refine ⟨rfl, ?_⟩
  intro h
  cases h

theorem field_of_nullish {v : JsVal} (k : String) (h : v.isNullish = true) :
    field v k = undefined := by
  cases v <;> first | rfl | cases h

theorem baseGetLoop_eq_foldl (ks : List String) :
    ∀ object : JsVal, baseGetLoop object ks = ks.foldl field object := by
  induction ks with
  | nil => intro object; rfl
  | cons k ks ih =>
    intro object
    cases hn : object.isNullish with
    | false => simp only [baseGetLoop, hn, Bool.false_eq_true, if_false, ih, List.foldl_cons]
    | true =>
      simp only [baseGetLoop, hn, if_true, List.foldl_cons, field_of_nullish k hn]
      have hu : ∀ l : List String, l.foldl field undefined = undefined := by
        intro l
        induction l with
        | nil => rfl
        | cons a l ih2 => simpa [List.foldl_cons] using ih2
      exact (hu ks).symm

theorem get_cover_path (cover : JsVal) (hkey : hasProp cover "data[0].attributes.url" = false) :
    get cover "data[0].attributes.url"
      = field (field (field (field cover "data") "0") "attributes") "url" := by
  cases hn : cover.isNullish with
  | true =>
    simp only [get, hn, if_true, field_of_nullish "data" hn]
    rfl
  | false =>
    have hk : isKey "data[0].attributes.url" cover = false := by
      have h1 : ("data[0].attributes.url" : String).data.all isWordChar = false := by rfl
      have h2 : ("data[0].attributes.url" : String).data.any (fun c => c = '.' || c = '[')
          = true := by rfl
      simp only [isKey, h1, h2, hkey, hn]
      rfl
    have hp : stringToPath "data[0].attributes.url" = ["data", "0", "attributes", "url"] := rfl
    simp only [get, hn, Bool.false_eq_true, if_false, baseGet, castPath, hk, hp,
      baseGetLoop_eq_foldl, List.foldl_cons, List.foldl_nil]

/-- C3 as amended, for every cover relation that has no property named by the
whole path string `data[0].attributes.url`. An absent relation (`undefined`,
`null`, or a relation whose `data` is missing, `null` or the empty list)
resolves to `null`. A list-shaped relation, whose `data` is a list with first
entry `x`, resolves to the base URL followed by `x.attributes.url` when that
is a non-empty string `p`, whatever else the relation, the entry and the rest
of the list hold. A relation whose `data` is an object without a property `0`
(the single-object shape) resolves to `null`. -/
theorem getCoverUrl_resolves (env : Env) (base : String) (cover : JsVal)
    (hb : env.baseUrl = some base)
    (hkey : hasProp cover "data[0].attributes.url" = false) :
    ((cover.isNullish = true ∨ (field cover "data").isNullish = true
        ∨ field cover "data" = arr []) → getCoverUrl env cover = null) ∧
    (∀ x rest p, field cover "data" = arr (x :: rest) →
      field (field x "attributes") "url" = str p → p ≠ "" →
      getCoverUrl env cover = str (base ++ p)) ∧
    (∀ gs, field cover "data" = obj gs → lookup "0" gs = none →
      getCoverUrl env cover = null) := by
  have hget := get_cover_path cover hkey
  refine ⟨?_, ?_, ?_⟩
  · intro h
    have hu : field (field (field (field cover "data") "0") "attributes") "url" = undefined := by
      rcases h with h | h | h
      · rw [field_of_nullish "data" h]; rfl
      · rw [field_of_nullish "0" h]; rfl
      · rw [h]; rfl
    simp only [getCoverUrl, hget, hu]
    rfl
  · intro x rest p hd hu hp
    have h0 : field (arr (x :: rest)) "0" = x := rfl
    simp [getCoverUrl, hget, hd, h0, hu, truthy, hp, Env.baseStr, hb, Env.tmpl, toStr]
  · intro gs hd h0
    have hz : field (obj gs) "0" = undefined := by simp [field, h0]
    simp only [getCoverUrl, hget, hd, hz]
    rfl

/-- C3 as amended, at a cover with two entries that carry ids and further
attributes: the first entry's path is taken. -/
theorem getCoverUrl_resolves_witness :
    getCoverUrl (envJson null) twoEntryCover = str ("http://cms" ++ "/uploads/a.png") :=
  (getCoverUrl_resolves (envJson null) "http://cms" twoEntryCover rfl rfl).2.1
    _ _ "/uploads/a.png" rfl rfl (by decide)

/-! ## The empty list envelope (C1) -/

/-- C1 fails for `getAllBlogs`: on the envelope with no items and pagination
`{pageCount: 0}` it returns `null`, not the empty data list with that
pagination. -/
theorem getAllBlogs_empty_envelope_null :
    getAllBlogs (envJson (emptyEnvelope (obj [("pageCount", num 0)]))) undefined undefined
      = .ok null ∧
    getAllBlogs (envJson (emptyEnvelope (obj [("pageCount", num 0)]))) undefined undefined
      ≠ .ok (obj [("data", arr []), ("pagination", obj [("pageCount", num 0)])]) := by
  refine ⟨rfl, ?_⟩
  intro h
  cases h

/-- C1 as amended: when the transport returns the envelope with no items and
pagination `p`, `searchPosts` returns the empty data list with `p` passed
through; `getAllBlogs` returns `null` and `getBlogsByTag` returns
`{data: [], pagination: {pageCount: 1}}`, whatever `p` is. -/
theorem empty_envelope_results (env : Env) (p tag query page pageSize : JsVal)
    (h : ∀ url, fetchData env 0 url (obj []) = .ok (emptyEnvelope p)) :
    searchPosts env query page pageSize
      = .ok (obj [("data", arr []), ("pagination", p)]) ∧
    getAllBlogs env page pageSize = .ok null ∧
    getBlogsByTag env tag page pageSize = .ok emptyPage := by
  refine ⟨?_, ?_, ?_⟩
  · simp only [searchPosts, h]
    rfl
  · simp only [getAllBlogs, h]
    rfl
  · simp only [getBlogsByTag, h]
    rfl

/-- C1 as amended, at the pagination `{pageCount: 0}`. -/
theorem empty_envelope_results_witness :
    searchPosts (envJson (emptyEnvelope (obj [("pageCount", num 0)])))
        (str "lean") undefined undefined
      = .ok (obj [("data", arr []), ("pagination", obj [("pageCount", num 0)])]) :=
  (empty_envelope_results (envJson (emptyEnvelope (obj [("pageCount", num 0)])))
    (obj [("pageCount", num 0)]) (str "news") (str "lean") undefined undefined
    (fun _ => rfl)).1

/-! ## Empty sentinels (C6) -/

/-- C6 fails for `getBlogsByPage`: when the transport returns `null` its
result is `{posts: [], meta: {}}`, which is none of `null`, `[]` and
`{data: [], pagination: {pageCount: 1}}`. -/
theorem getBlogsByPage_other_sentinel :
    (∀ url, fetchData (envOf (.error .networkError)) 0 url (obj []) = .ok null) ∧
    getBlogsByPage (envOf (.error .networkError)) (num 1) (num 4)
      = .ok (obj [("posts", arr []), ("meta", obj [])]) ∧
    getBlogsByPage (envOf (.error .networkError)) (num 1) (num 4) ≠ .ok null ∧
    getBlogsByPage (envOf (.error .networkError)) (num 1) (num 4) ≠ .ok (arr []) ∧
    getBlogsByPage (envOf (.error .networkError)) (num 1) (num 4) ≠ .ok emptyPage := by
  refine ⟨fun _ => rfl, rfl, ?_, ?_, ?_⟩
  · intro h
    cases h
  · intro h
    cases h
  · intro h
    have h2 : obj [("posts", arr []), ("meta", obj [])] = emptyPage := Except.ok.inj h
    simp [emptyPage] at h2

/-- C6 as amended: when `fetchData` returns `null`, every query function
returns without raising, and its result is `null` (`getAllBlogs`,
`getBlogBySlug`), `[]` (`getSimilarPosts` on a tag list, `searchPosts`,
`getPopularBlogsByRating`), `{data: [], pagination: {pageCount: 1}}`
(`getBlogsByTag`) or `{posts: [], meta: {}}` (`getBlogsByPage`). -/
theorem null_transport_sentinels (env : Env)
    (h : ∀ url, fetchData env 0 url (obj []) = .ok null)
    (page pageSize slug tag query currentPostId : JsVal) (ts : List JsVal) :
    getAllBlogs env page pageSize = .ok null ∧
    getBlogBySlug env slug = .ok null ∧
    getBlogsByTag env tag page pageSize = .ok emptyPage ∧
    getSimilarPosts env (arr ts) currentPostId = .ok (arr []) ∧
    getBlogsByPage env page pageSize = .ok (obj [("posts", arr []), ("meta", obj [])]) ∧
    searchPosts env query page pageSize = .ok (arr []) ∧
    getPopularBlogsByRating env = .ok (arr []) := by
  refine ⟨?_, ?_, ?_, ?_, ?_, ?_, ?_⟩
  · simp only [getAllBlogs, h]
    rfl
  · simp only [getBlogBySlug, h]
    rfl
  · simp only [getBlogsByTag, h]
    rfl
  · simp only [getSimilarPosts, h]
    rfl
  · simp only [getBlogsByPage, h]
    rfl
  · simp only [searchPosts, h]
    rfl
  · simp only [getPopularBlogsByRating, h]
    rfl

/-- C6 as amended, at an environment whose requests all fail. -/
theorem null_transport_sentinels_witness :
    getBlogsByTag (envOf (.error .networkError)) (str "news") undefined undefined
      = .ok emptyPage ∧
    getSimilarPosts (envOf (.error .networkError)) (arr [str "news"]) (num 7)
      = .ok (arr []) :=
  ⟨(null_transport_sentinels (envOf (.error .networkError)) (fun _ => rfl)
      undefined undefined (str "a") (str "news") (str "q") (num 7) [str "news"]).2.2.1,
   (null_transport_sentinels (envOf (.error .networkError)) (fun _ => rfl)
      undefined undefined (str "a") (str "news") (str "q") (num 7) [str "news"]).2.2.2.1⟩

/-! ## Absent tag relation (C2) and absent seo (C9) -/

/-- C2, at the failing input: on a response whose post has no tag relation,
`getBlogsByTag` and `getSimilarPosts` raise a TypeError, while `getAllBlogs`
on the same response returns the post with `tags` the empty list. -/
theorem tags_absent_raises :
    getBlogsByTag (envJson bareResponse) (str "news") undefined undefined
      = .error .typeError ∧
    getSimilarPosts (envJson bareResponse) (arr [str "news"]) (num 7)
      = .error .typeError ∧
    getAllBlogs (envJson bareResponse) undefined undefined
      = .ok (obj [("data", arr [obj [("id", num 1), ("title", str "Hello"),
          ("slug", str "hello"), ("coverUrl", null), ("tags", arr []),
          ("createdAt", undefined)]]),
        ("pagination", obj [("pageCount", num 1)])]) := by
  refine ⟨rfl, rfl, rfl⟩

/-- C9, at the failing input: on a response whose first post has no `seo`,
`getBlogsByPage` raises a TypeError and returns no record at all. -/
theorem getBlogsByPage_seo_absent_raises :
    getBlogsByPage (envJson seoLessResponse) (num 1) (num 4) = .error .typeError := by
  rfl

/-! ## Fetch by slug (C10) -/

/-- C10: `getBlogBySlug` returns the reshape of the first matching item or
`null`. When the response's data list is `p :: rest`, with `p` and its
attributes present and its tag relation absent or populated, the result is the
record with `id = p.id`, `title`, `content`, `seo` and `createdAt` the
same-named attributes of `p`, `cover = getCoverUrl(p.attributes.cover)` and
`tags` the `{name, slug}` pairs of `p`'s tags. When the transport yields `null`,
or the data list is absent or empty, the result is `null`; so it is whenever
the guard `!strapiData || !strapiData.data || !strapiData.data.length` holds. -/
theorem getBlogBySlug_reshapes (env : Env) (slug strapiData : JsVal)
    (hfetch : ∀ url, fetchData env 0 url (obj []) = .ok strapiData) :
    (∀ p rest, field strapiData "data" = arr (p :: rest) →
      p.isNullish = false → (field p "attributes").isNullish = false →
      tagsOk (field (field p "attributes") "tags") = true →
      getBlogBySlug env slug = .ok (obj [
        ("id", field p "id"),
        ("title", field (field p "attributes") "title"),
        ("content", field (field p "attributes") "content"),
        ("cover", getCoverUrl env (field (field p "attributes") "cover")),
        ("tags", arr ((tagList (field (field p "attributes") "tags")).map tagPair)),
        ("seo", field (field p "attributes") "seo"),
        ("createdAt", field (field p "attributes") "createdAt")])) ∧
    ((strapiData = null ∨ field strapiData "data" = undefined
        ∨ field strapiData "data" = arr []) →
      getBlogBySlug env slug = .ok null) ∧
    (noItems strapiData = true → getBlogBySlug env slug = .ok null) := by
  refine ⟨?_, ?_, ?_⟩
  · intro p rest hd hp ha ht
    have h0 : field (arr (p :: rest)) "0" = p := rfl
    have htags := optTags_ok _ tagNameSlug tagPair tagNameSlug_ok ht
    simp only [getBlogBySlug, hfetch, ok_bind, noItems_of_cons hd, hd, h0,
      getProp_of_not_nullish _ hp, getProp_of_not_nullish _ ha, htags, pure_eq_ok]
    rfl
  · intro h
    have hno : noItems strapiData = true := by
      rcases h with h | h | h
      · subst h; rfl
      · simp [noItems, noData, h, truthy]
      · have hlen : field (arr []) "length" = num 0 := rfl
        simp [noItems, noData, h, hlen, truthy]
    simp only [getBlogBySlug, hfetch, ok_bind, hno]
    rfl
  · intro hno
    simp only [getBlogBySlug, hfetch, ok_bind, hno]
    rfl

/-- C10 at a concrete response: the first of three posts is returned reshaped. -/
theorem getBlogBySlug_reshapes_witness :
    getBlogBySlug (envJson threePosts) (str "seven") = .ok (obj [
      ("id", num 7), ("title", str "Title"), ("content", str "Body"),
      ("cover", str "http://cms/c.png"),
      ("tags", arr [obj [("name", str "News"), ("slug", str "news")]]),
      ("seo", obj [("id", num 4), ("SeoTitle", str "T"), ("SeoDescription", str "D")]),
      ("createdAt", str "2024-01-01")]) :=
  (getBlogBySlug_reshapes (envJson threePosts) (str "seven") threePosts (fun _ => rfl)).1
    (fullPost 7 "seven") [fullPost 8 "eight", fullPost 9 "nine"] rfl rfl rfl rfl

/-! ## Similar posts (C5) -/

theorem filterE_notCurrent (cur : JsVal) (posts : List JsVal)
    (h : ∀ post ∈ posts, post.isNullish = false) :
    filterE (notCurrent cur) posts
      = .ok (posts.filter (fun post => !strictEq (field post "id") cur)) := by
  induction posts with
  | nil => rfl
  | cons p ps ih =>
    have hp := h p (List.mem_cons_self p ps)
    have hps := ih (fun q hq => h q (List.mem_cons_of_mem p hq))
    have hn : notCurrent cur p = .ok (!strictEq (field p "id") cur) := by
      simp only [notCurrent, getProp_of_not_nullish _ hp, ok_bind, pure_eq_ok]
    simp only [filterE, hn, hps, List.filter_cons]

theorem similarRecord_ok (env : Env) (post : JsVal) (hp : post.isNullish = false)
    (h : similarOk post = true) : similarRecord env post = .ok (similarView env post) := by
  simp only [similarOk, Bool.and_eq_true, Bool.not_eq_true'] at h
  obtain ⟨⟨ha, ht⟩, hd⟩ := h
  cases hdata : field (field (field post "attributes") "tags") "data" with
  | arr ts =>
    rw [hdata] at hd
    have hm : mapE tagAttributes ts = .ok (ts.map (fun t => field t "attributes")) :=
      mapE_eq_map _ _ ts (fun t ht2 => by
        have := List.all_eq_true.mp hd t ht2
        simp only [Bool.not_eq_true'] at this
        exact getProp_of_not_nullish _ this)
    simp only [similarRecord, getProp_of_not_nullish _ hp, getProp_of_not_nullish _ ha,
      getProp_of_not_nullish _ ht, ok_bind, hdata, arrayMap, hm, pure_eq_ok, similarView,
      tagList, ht, Bool.false_eq_true, if_false]
  | _ => rw [hdata] at hd; cases hd

/-- C5, at the failing input: on a response holding the current post 7 and a
post 8 without a tag relation, `getSimilarPosts` raises a TypeError instead of
returning the list that leaves out post 7 and holds post 8 reshaped;
`searchPosts`, which reads the tag relation through an optional chain,
reshapes both posts of the same response. -/
theorem getSimilarPosts_tagless_raises :
    getSimilarPosts (envJson taglessNeighbour) (arr [str "News"]) (num 7)
      = .error .typeError ∧
    searchPosts (envJson taglessNeighbour) (str "e") undefined undefined
      = .ok (obj [("data", arr [
          obj [("id", num 7), ("title", str "Title"), ("slug", str "seven"),
            ("coverUrl", str "http://cms/c.png"), ("tags", arr [obj [("name", str "News")]]),
            ("createdAt", str "2024-01-01")],
          obj [("id", num 8), ("title", str "Eight"), ("slug", str "eight"),
            ("coverUrl", null), ("tags", arr []), ("createdAt", undefined)]]),
        ("pagination", obj [("pageCount", num 1)])]) :=
  ⟨rfl, rfl⟩

/-- Similar posts on a populated response: for every tag list, every
`currentPostId` and every response whose posts are present, those other than
the current one carrying attributes and a populated tag relation,
`getSimilarPosts` returns a list with no entry whose id equals
`currentPostId`, made of the reshaped records of all the other posts, in
response order. -/
theorem getSimilarPosts_excludes_current (env : Env) (ts : List JsVal)
    (currentPostId strapiData : JsVal) (posts : List JsVal)
    (hfetch : ∀ url, fetchData env 0 url (obj []) = .ok strapiData)
    (hdata : field strapiData "data" = arr posts)
    (hposts : ∀ post ∈ posts, post.isNullish = false)
    (hkept : ∀ post ∈ posts, strictEq (field post "id") currentPostId = false →
      similarOk post = true) :
    ∃ out, getSimilarPosts env (arr ts) currentPostId = .ok (arr out) ∧
      (∀ r ∈ out, strictEq (field r "id") currentPostId = false) ∧
      out = (posts.filter (fun post => !strictEq (field post "id") currentPostId)).map
        (similarView env) := by
  refine ⟨_, ?_, ?_, rfl⟩
  · have hm : mapE (similarRecord env)
        (posts.filter (fun post => !strictEq (field post "id") currentPostId))
        = .ok ((posts.filter (fun post => !strictEq (field post "id") currentPostId)).map
          (similarView env)) :=
      mapE_eq_map _ _ _ (fun post hp => by
        rw [List.mem_filter] at hp
        have hne : strictEq (field post "id") currentPostId = false := by simpa using hp.2
        exact similarRecord_ok env post (hposts post hp.1) (hkept post hp.1 hne))
    simp only [getSimilarPosts, hfetch, ok_bind, noData_of_field_data hdata, hdata,
      arrayFilter, filterE_notCurrent currentPostId posts hposts, arrayMap, hm]
    rfl
  · intro r hr
    rw [List.mem_map] at hr
    obtain ⟨post, hp, rfl⟩ := hr
    rw [List.mem_filter] at hp
    have hid : field (similarView env post) "id" = field post "id" := rfl
    rw [hid]
    simpa using hp.2

/-- Similar posts at a concrete populated response holding the current post 7
and the posts 8 and 9. -/
theorem getSimilarPosts_excludes_current_witness :
    ∃ out, getSimilarPosts (envJson threePosts) (arr [str "News"]) (num 7) = .ok (arr out) ∧
      (∀ r ∈ out, strictEq (field r "id") (num 7) = false) ∧
      out = [similarView (envJson threePosts) (fullPost 8 "eight"),
        similarView (envJson threePosts) (fullPost 9 "nine")] :=
  getSimilarPosts_excludes_current (envJson threePosts) [str "News"] (num 7) threePosts
    [fullPost 7 "seven", fullPost 8 "eight", fullPost 9 "nine"] (fun _ => rfl) rfl
    (fun post h => by
      simp only [List.mem_cons, List.mem_singleton, List.not_mem_nil, or_false] at h
      rcases h with rfl | rfl | rfl <;> rfl)
    (fun post h _ => by
      simp only [List.mem_cons, List.mem_singleton, List.not_mem_nil, or_false] at h
      rcases h with rfl | rfl | rfl <;> rfl)

/-! ## Popular posts by rating (C4) -/

theorem sortsAfter_rated (env : Env) (a b : JsVal) (ha : isRated a = true)
    (hb : isRated b = true) :
    sortsAfter (byRatingDesc env) a b = decide (ratingOf a < ratingOf b) := by
  unfold isRated at ha hb
  unfold sortsAfter byRatingDesc ratingOf
  cases hfa : field a "averageRating" <;> rw [hfa] at ha <;> try cases ha
  cases hfb : field b "averageRating" <;> rw [hfb] at hb <;> try cases hb
  simp [toNumber]

theorem insertSorted_perm (cmp : JsVal → JsVal → Option ℚ) (x : JsVal) (ys : List JsVal) :
    (insertSorted cmp x ys).Perm (x :: ys) := by
  induction ys with
  | nil => exact List.Perm.refl _
  | cons y ys ih =>
    unfold insertSorted
    by_cases h : sortsAfter cmp x y = true
    · rw [if_pos h]
      exact (List.Perm.cons y ih).trans (List.Perm.swap x y ys)
    · rw [if_neg h]

theorem arraySort_perm (cmp : JsVal → JsVal → Option ℚ) (xs : List JsVal) :
    (arraySort cmp xs).Perm xs := by
  induction xs with
  | nil => exact List.Perm.refl _
  | cons x xs ih =>
    unfold arraySort
    exact (insertSorted_perm cmp x _).trans (List.Perm.cons x ih)

theorem insertSorted_pairwise (env : Env) (x : JsVal) (ys : List JsVal)
    (hx : isRated x = true) (hys : ∀ y ∈ ys, isRated y = true)
    (hsorted : ys.Pairwise (fun a b => ratingOf b ≤ ratingOf a)) :
    (insertSorted (byRatingDesc env) x ys).Pairwise (fun a b => ratingOf b ≤ ratingOf a) := by
  induction ys with
  | nil => simp [insertSorted]
  | cons y ys ih =>
    have hy := hys y (List.mem_cons_self y ys)
    have hys2 : ∀ z ∈ ys, isRated z = true := fun z hz => hys z (List.mem_cons_of_mem y hz)
    rw [List.pairwise_cons] at hsorted
    unfold insertSorted
    rw [sortsAfter_rated env x y hx hy]
    by_cases h : ratingOf x < ratingOf y
    · simp only [h, decide_True, if_true]
      rw [List.pairwise_cons]
      refine ⟨?_, ih hys2 hsorted.2⟩
      intro z hz
      rcases List.mem_cons.mp ((insertSorted_perm _ x ys).mem_iff.mp hz) with hzx | hzy
      · rw [hzx]; exact le_of_lt h
      · exact hsorted.1 z hzy
    · simp only [h, decide_False, Bool.false_eq_true, if_false]
      rw [List.pairwise_cons]
      refine ⟨?_, List.pairwise_cons.mpr hsorted⟩
      intro z hz
      rcases List.mem_cons.mp hz with hzy | hzy
      · rw [hzy]; exact not_lt.mp h
      · exact le_trans (hsorted.1 z hzy) (not_lt.mp h)

theorem insertSorted_filter (env : Env) (q : ℚ) (x : JsVal) (ys : List JsVal)
    (hx : isRated x = true) (hys : ∀ y ∈ ys, isRated y = true) :
    (insertSorted (byRatingDesc env) x ys).filter (fun r => decide (ratingOf r = q))
      = (x :: ys).filter (fun r => decide (ratingOf r = q)) := by
  induction ys with
  | nil => rfl
  | cons y ys ih =>
    have hy := hys y (List.mem_cons_self y ys)
    have hys2 : ∀ z ∈ ys, isRated z = true := fun z hz => hys z (List.mem_cons_of_mem y hz)
    unfold insertSorted
    rw [sortsAfter_rated env x y hx hy]
    by_cases h : ratingOf x < ratingOf y
    · simp only [h, decide_True, if_true]
      rw [List.filter_cons, ih hys2]
      by_cases hxq : ratingOf x = q
      · have hyq : ratingOf y ≠ q := by
          intro hyq; rw [hxq, hyq] at h; exact lt_irrefl _ h
        simp [List.filter_cons, hxq, hyq]
      · simp [List.filter_cons, hxq]
    · simp only [h, decide_False, Bool.false_eq_true, if_false]

theorem arraySort_rated (env : Env) (xs : List JsVal) (h : ∀ x ∈ xs, isRated x = true) :
    (arraySort (byRatingDesc env) xs).Pairwise (fun a b => ratingOf b ≤ ratingOf a) ∧
    ∀ q, (arraySort (byRatingDesc env) xs).filter (fun r => decide (ratingOf r = q))
      = xs.filter (fun r => decide (ratingOf r = q)) := by
  induction xs with
  | nil => exact ⟨List.Pairwise.nil, fun _ => rfl⟩
  | cons x xs ih =>
    have hx := h x (List.mem_cons_self x xs)
    have hxs : ∀ z ∈ xs, isRated z = true := fun z hz => h z (List.mem_cons_of_mem x hz)
    have hs : ∀ z ∈ arraySort (byRatingDesc env) xs, isRated z = true :=
      fun z hz => hxs z ((arraySort_perm _ xs).mem_iff.mp hz)
    obtain ⟨ih1, ih2⟩ := ih hxs
    unfold arraySort
    refine ⟨insertSorted_pairwise env x _ hx hs ih1, ?_⟩
    intro q
    rw [insertSorted_filter env q x _ hx hs, List.filter_cons, List.filter_cons, ih2 q]

theorem rating_or_zero (st : JsVal) (h : statsOk st = true) :
    JsVal.or (optProp st "averageScore") (num 0) = num (scoreOf st) := by
  cases st with
  | null => rfl
  | undefined => simp [statsOk, field] at h
  | _ =>
    simp only [statsOk] at h
    simp only [optProp, isNullish, scoreOf]
    split at h
    · rename_i q hq
      simp only [Bool.false_eq_true, if_false, hq, JsVal.or, truthy]
      by_cases hq0 : q = 0
      · simp [hq0]
      · simp [hq0]
    · cases h

theorem ratedRecord_ok (env : Env) (i : Nat) (post st : JsVal) (hp : postOk post = true)
    (hf : fetchData env (i + 1) (ratingUrl env post) (obj []) = .ok st)
    (hst : statsOk st = true) :
    ratedRecord env i post = .ok (ratedView env post (scoreOf st)) := by
  simp only [postOk, Bool.and_eq_true, Bool.not_eq_true'] at hp
  obtain ⟨⟨hp1, hp2⟩, hp3⟩ := hp
  have htags := optTags_ok _ tagName tagNameOnly tagName_ok hp3
  unfold ratingUrl at hf
  simp only [ratedRecord, getProp_of_not_nullish _ hp1, getProp_of_not_nullish _ hp2,
    ok_bind, hf, htags, pure_eq_ok, rating_or_zero st hst, ratedView]

theorem mapIdxE_ratedRecord (env : Env) (stats : Nat → JsVal) (posts : List JsVal) :
    ∀ i : Nat, (∀ post ∈ posts, postOk post = true) →
      (∀ j post, posts.get? j = some post →
        fetchData env (i + j + 1) (ratingUrl env post) (obj []) = .ok (stats (i + j))) →
      (∀ j, j < posts.length → statsOk (stats (i + j)) = true) →
      mapIdxE (ratedRecord env) i posts = .ok (ratedViews env stats i posts) := by
  induction posts with
  | nil => intro i _ _ _; rfl
  | cons p ps ih =>
    intro i hok hf hst
    have h1 := ratedRecord_ok env i p (stats i) (hok p (List.mem_cons_self p ps))
      (by simpa using hf 0 p rfl) (by simpa using hst 0 (by simp))
    have h2 := ih (i + 1) (fun q hq => hok q (List.mem_cons_of_mem p hq))
      (fun j q hq => by
        have := hf (j + 1) q (by simpa using hq)
        have e : i + 1 + j = i + (j + 1) := by omega
        rw [e]; exact this)
      (fun j hj => by
        have := hst (j + 1) (by simpa using hj)
        have e : i + 1 + j = i + (j + 1) := by omega
        rw [e]; exact this)
    simp only [mapIdxE, h1, h2, ratedViews]

theorem ratedViews_rated (env : Env) (stats : Nat → JsVal) (posts : List JsVal) :
    ∀ i : Nat, ∀ r ∈ ratedViews env stats i posts, isRated r = true := by
  induction posts with
  | nil => intro i r hr; cases hr
  | cons p ps ih =>
    intro i r hr
    rcases List.mem_cons.mp hr with h | h
    · rw [h]; rfl
    · exact ih (i + 1) r h

/-- C4: `getPopularBlogsByRating` returns the stable descending sort by
`averageRating` of the reshaped post list. Each post is rated by the
`averageScore` of its own statistics request, or 0 when that request yields no
result (`ratedViews`); the result is a permutation of these records, its
ratings are non-increasing along the list, and for every rating `q` the posts
rated `q` appear in the order they had in the first response. -/
theorem getPopularBlogsByRating_sorted (env : Env) (strapiData : JsVal)
    (posts : List JsVal) (stats : Nat → JsVal)
    (hfetch : fetchData env 0 "/api/posts?populate=cover,tags" (obj []) = .ok strapiData)
    (hdata : field strapiData "data" = arr posts)
    (hposts : ∀ post ∈ posts, postOk post = true)
    (hstats : ∀ i post, posts.get? i = some post →
      fetchData env (i + 1) (ratingUrl env post) (obj []) = .ok (stats i))
    (hnum : ∀ i, i < posts.length → statsOk (stats i) = true) :
    ∃ out, getPopularBlogsByRating env = .ok (arr out) ∧
      out.Perm (ratedViews env stats 0 posts) ∧
      out.Pairwise (fun a b => ratingOf b ≤ ratingOf a) ∧
      ∀ q, out.filter (fun r => decide (ratingOf r = q))
        = (ratedViews env stats 0 posts).filter (fun r => decide (ratingOf r = q)) := by
  have hmap := mapIdxE_ratedRecord env stats posts 0 hposts
    (fun j post hj => by simpa using hstats j post hj)
    (fun j hj => by simpa using hnum j hj)
  have hsort := arraySort_rated env (ratedViews env stats 0 posts)
    (ratedViews_rated env stats posts 0)
  refine ⟨arraySort (byRatingDesc env) (ratedViews env stats 0 posts), ?_,
    arraySort_perm _ _, hsort.1, hsort.2⟩
  simp only [getPopularBlogsByRating, hfetch, ok_bind, noData_of_field_data hdata, hdata,
    hmap, pure_eq_ok]
  rfl

/-- C4 at a concrete environment: three posts with scores 3, none (the
request fails) and 5. -/
theorem getPopularBlogsByRating_sorted_witness :
    ∃ out, getPopularBlogsByRating popularEnv = .ok (arr out) ∧
      out.Perm (ratedViews popularEnv sampleStats 0
        [fullPost 7 "seven", fullPost 8 "eight", fullPost 9 "nine"]) ∧
      out.Pairwise (fun a b => ratingOf b ≤ ratingOf a) ∧
      ∀ q, out.filter (fun r => decide (ratingOf r = q))
        = (ratedViews popularEnv sampleStats 0
            [fullPost 7 "seven", fullPost 8 "eight", fullPost 9 "nine"]).filter
          (fun r => decide (ratingOf r = q)) :=
  getPopularBlogsByRating_sorted popularEnv threePosts
    [fullPost 7 "seven", fullPost 8 "eight", fullPost 9 "nine"] sampleStats rfl rfl
    (fun post h => by
      simp only [List.mem_cons, List.mem_singleton, List.not_mem_nil, or_false] at h
      rcases h with rfl | rfl | rfl <;> rfl)
    (fun i post _ =>
      match i with
      | 0 => rfl
      | 1 => rfl
      | 2 => rfl
      | _ + 3 => rfl)
    (fun i _ =>
      match i with
      | 0 => rfl
      | 1 => rfl
      | 2 => rfl
      | _ + 3 => rfl)

end Api
